import Mathlib

/-!
Verification of the futures-fs crate (src/lib.rs) against its
natural-language specification. The crate bridges blocking file IO and
cooperative polling: an `FsPool` facade dispatches blocking closures to an
executor, and results travel back through oneshot channels wrapped in
`FsFuture`. The read and write stream modules are declared in lib.rs but
their sources are not present; where a claim depends on them, definitions
are modelled from the specification and marked as such.
-/

namespace FuturesFs

/-- Kind of a system IO error, as carried by io::Error. Only the
distinctions the claims need are modelled. -/
inductive IoErrorKind where
  | notFound
  | other
deriving DecidableEq

/-- Model of std::io::Error: a kind plus a message. -/
structure IoError where
  kind : IoErrorKind
  msg : String
deriving DecidableEq

/-- Model of futures 0.1 Async: Ready(value) or NotReady. -/
inductive Async (α : Type) where
  | Ready (value : α)
  | NotReady
deriving DecidableEq

/-- Model of futures::sync::oneshot::Canceled, the error Receiver::poll
returns when the Sender was dropped without sending. -/
inductive Canceled where
  | mk
deriving DecidableEq

/-- Outcome of evaluating Rust code that may panic: either a panic with a
message, or a value. -/
inductive PanicOr (α : Type) where
  | panic (msg : String)
  | value (a : α)
deriving DecidableEq

/-- State of a oneshot channel as seen from the Receiver: nothing sent yet
with the Sender alive, a value sent, or the Sender dropped without
sending. -/
inductive OneshotState (α : Type) where
  | waiting
  | sent (a : α)
  | canceled
deriving DecidableEq

/-- Model of Result::unwrap: a panic on the Err branch. -/
def unwrapOrPanic {ε α : Type} : Except ε α → PanicOr α
  | .ok a => .value a
  | .error _ => .panic "called Result unwrap on an Err value"

/-- Model of futures 0.1 oneshot Receiver::poll: NotReady while the sender
is alive and silent, Ready once a value was sent, Err(Canceled) if the
sender was dropped without sending. -/
def Receiver.poll {α : Type} : OneshotState α → Except Canceled (Async α)
  | .waiting => .ok .NotReady
  | .sent a => .ok (.Ready a)
  | .canceled => .error .mk

/-- Embedding of FsFuture::poll (src/lib.rs lines 172-178): the inner
receiver is polled and the result unwrapped, then Ready(Ok(item)) becomes
Ready(item), Ready(Err(e)) becomes the error e, NotReady stays NotReady.
The unwrap panics when the receiver reports Canceled. -/
def FsFuture.poll {α : Type} (inner : OneshotState (Except IoError α)) :
    PanicOr (Except IoError (Async α)) :=
  match unwrapOrPanic (Receiver.poll inner) with
  | .panic m => .panic m
  | .value (.Ready (.ok item)) => .value (.ok (.Ready item))
  | .value (.Ready (.error e)) => .value (.error e)
  | .value .NotReady => .value (.ok .NotReady)

/-- A file system, modelled as an association list from paths to byte
contents (bytes as naturals). -/
abbrev FileSys := List (String × List Nat)

/-- Path lookup in the modelled file system. -/
def lookupFile : FileSys → String → Option (List Nat)
  | [], _ => none
  | e :: rest, p => if e.1 = p then some e.2 else lookupFile rest p

/-- Removal of a path from the modelled file system. -/
def removeEntry (fs : FileSys) (p : String) : FileSys :=
  fs.filter (fun e => decide (e.1 ≠ p))

/-- Modelled from the spec: the platform remove call (std fs remove_file),
an external collaborator treated as a blocking primitive. Removing a
missing path yields a not-found system IO error; removing an existing file
succeeds and the file is absent afterward. Returns the updated file system
together with the Result the call reports. -/
def removeFile (fs : FileSys) (p : String) : FileSys × Except IoError Unit :=
  if (lookupFile fs p).isSome then
    (removeEntry fs p, .ok ())
  else
    (fs, .error ⟨.notFound, "No such file or directory"⟩)

/-- Kind of executor refusal, after futures::future::ExecuteErrorKind. -/
inductive ExecuteErrorKind where
  | shutdown
  | noCapacity
deriving DecidableEq

/-- Dynamic state of the executor behind the pool: whether it has shut
down, and the queue of dispatched delete tasks (identified by the path
each closure captured). -/
structure ExecState where
  shutdown : Bool
  queue : List String
deriving DecidableEq

/-- Model of Executor::execute: a shut-down executor refuses the task,
otherwise the task is enqueued. -/
def Executor.execute (ex : ExecState) (task : String) :
    Except ExecuteErrorKind ExecState :=
  if ex.shutdown then .error .shutdown
  else .ok ⟨ex.shutdown, ex.queue ++ [task]⟩

/-- Embedding of FsPool::delete (src/lib.rs lines 128-142) with the state
made explicit: a fresh oneshot channel is created, a closure that removes
the file and sends the Result is handed to the executor, and the execute
result is unwrapped (a refusal therefore panics). The caller gets back the
receiver, still waiting. The calling thread performs no file-system
operation, so the file-system state is threaded through unchanged. -/
def FsPool.delete (files : FileSys) (ex : ExecState) (path : String) :
    PanicOr (FileSys × ExecState × OneshotState (Except IoError Unit)) :=
  match unwrapOrPanic (Executor.execute ex path) with
  | .panic m => .panic m
  | .value ex2 => .value (files, ex2, .waiting)

/-- What running one dispatched delete task produces: the file system
afterward, the channel state the producer leaves behind, how many values
were delivered into the channel, and the Result-valued outcome of the
closure itself. -/
structure TaskRun where
  files : FileSys
  chan : OneshotState (Except IoError Unit)
  sends : Nat
  result : PanicOr (Except Unit Unit)

/-- Embedding of the closure dispatched by FsPool::delete (src/lib.rs
lines 134-137): it removes the file, sends the Result into the oneshot
channel, and maps a failed send (receiver already dropped) to the unit
error via map_err. `receiverAlive` says whether the FsFuture still
exists when the task runs. -/
def runDeleteTask (path : String) (files : FileSys) (receiverAlive : Bool) :
    TaskRun :=
  let r := removeFile files path
  if receiverAlive then
    ⟨r.1, .sent r.2, 1, .value (.ok ())⟩
  else
    ⟨r.1, .canceled, 0, .value (.error ())⟩

/-- The executor backing an FsPool: either an owned CpuPool with a thread
count, or an externally supplied executor. -/
inductive ExecutorKind where
  | cpuPool (threads : Nat)
  | external
deriving DecidableEq

/-- Structural embedding of FsPool: it holds one shared executor. -/
structure FsPoolRepr where
  executor : ExecutorKind
deriving DecidableEq

/-- Embedding of FsPool::new (src/lib.rs lines 64-68): a CpuPool with the
supplied number of threads. -/
def FsPool.new (threads : Nat) : FsPoolRepr :=
  ⟨.cpuPool threads⟩

/-- Embedding of Default for FsPool (src/lib.rs lines 145-149). -/
def FsPool.defaultPool : FsPoolRepr :=
  FsPool.new 4

/-- Modelled from the spec: the Read Stream module (src/read.rs is not
under src/). One poll cycle performs a single blocking read of up to `c`
bytes at the current position; a chunk of `n > 0` bytes is emitted and the
position advances, `n = 0` closes the stream. `fuel` bounds the recursion
by the number of remaining bytes: with chunk size at least one every
emitted chunk consumes at least one byte. -/
def readRun (c : Nat) : Nat → List Nat → List (List Nat)
  | 0, _ => []
  | _ + 1, [] => []
  | fuel + 1, b :: bs => (b :: bs).take c :: readRun c fuel ((b :: bs).drop c)

/-- Modelled from the spec: the full chunk sequence a Read Stream emits
for a file with the given contents and chunk size `c`. -/
def readChunks (contents : List Nat) (c : Nat) : List (List Nat) :=
  readRun c contents.length contents

/-- Modelled from the spec: the Write Sink module (src/write.rs is not
under src/). One accepted chunk is written by a single blocking write at
the current end of the file. -/
def writeChunk (file chunk : List Nat) : List Nat :=
  file ++ chunk

/-- Modelled from the spec: a Write Sink accepts its chunks one at a time,
in order, each written before the next is accepted; the file starts
empty (default write options create/truncate). -/
def writeSinkRun (chunks : List (List Nat)) : List Nat :=
  List.foldl writeChunk [] chunks

/-- Modelled from the spec: the tagged state a Read Stream or Write Sink
holds — Idle (no task in flight), Pending (one completion handle
outstanding), Closed (terminal). -/
inductive OpState where
  | Idle
  | Pending
  | Closed
deriving DecidableEq

/-- Modelled from the spec: a stream or sink together with counters of how
many tasks it has submitted to the pool and how many of those have
resolved. The counters observe the pool like the counting collaborator
executor the spec describes. -/
structure Machine where
  st : OpState
  submitted : Nat
  resolved : Nat
deriving DecidableEq

/-- The state a Read Stream or Write Sink is created in. -/
def Machine.init : Machine :=
  ⟨.Idle, 0, 0⟩

/-- Tasks currently outstanding in the pool on behalf of this stream or
sink. -/
def Machine.outstanding (m : Machine) : Nat :=
  m.submitted - m.resolved

/-- Modelled from the spec: the poll/accept transitions of the Read
Stream and Write Sink state machines. A task is submitted only from Idle;
a pending task resolves back to Idle (chunk emitted or write accepted) or
to Closed (end of file or error); close is reached from Idle. -/
inductive Step : Machine → Machine → Prop where
  | submit (m : Machine) : m.st = .Idle →
      Step m ⟨.Pending, m.submitted + 1, m.resolved⟩
  | resolveOk (m : Machine) : m.st = .Pending →
      Step m ⟨.Idle, m.submitted, m.resolved + 1⟩
  | resolveEnd (m : Machine) : m.st = .Pending →
      Step m ⟨.Closed, m.submitted, m.resolved + 1⟩
  | close (m : Machine) : m.st = .Idle →
      Step m ⟨.Closed, m.submitted, m.resolved⟩

/-- States a single stream or sink can reach from creation. -/
def Reachable (m : Machine) : Prop :=
  Relation.ReflTransGen Step Machine.init m

/-! Helper lemmas shared by the claim theorems. -/

/-- After removing a path, looking that path up finds nothing. -/
theorem lookupFile_removeEntry (fs : FileSys) (p : String) :
    lookupFile (removeEntry fs p) p = none := by
  induction fs with
  | nil => rfl
  | cons e rest ih =>
      by_cases h : e.1 = p
      · simpa [removeEntry, List.filter_cons, h] using ih
      · simpa [removeEntry, List.filter_cons, h, lookupFile] using ih

/-- With chunk size at least one and enough fuel, the chunks produced by
the read loop concatenate back to the input bytes. -/
theorem readRun_flatten (c : Nat) (hc : 1 ≤ c) :
    ∀ (fuel : Nat) (bytes : List Nat), bytes.length ≤ fuel →
      (readRun c fuel bytes).flatten = bytes := by
  intro fuel
  induction fuel with
  | zero =>
      intro bytes hb
      have hnil : bytes = [] := List.length_eq_zero.mp (Nat.le_zero.mp hb)
      subst hnil
      rfl
  | succ fuel ih =>
      intro bytes hb
      cases bytes with
      | nil => rfl
      | cons b bs =>
          have hdrop : ((b :: bs).drop c).length ≤ fuel := by
            rw [List.length_drop]
            calc (b :: bs).length - c
                ≤ (b :: bs).length - 1 := Nat.sub_le_sub_left hc _
              _ = bs.length := by simp
              _ ≤ fuel := Nat.succ_le_succ_iff.mp (by simpa using hb)
          calc (readRun c (fuel + 1) (b :: bs)).flatten
              = (b :: bs).take c ++ (readRun c fuel ((b :: bs).drop c)).flatten := by
                simp [readRun]
            _ = (b :: bs).take c ++ (b :: bs).drop c := by
                rw [ih _ hdrop]
            _ = b :: bs := List.take_append_drop c (b :: bs)

/-- Folding the write step over the accepted chunks appends them all in
order. -/
theorem writeSinkRun_eq_flatten (chunks : List (List Nat)) :
    writeSinkRun chunks = chunks.flatten := by
  have hgen : ∀ (cs : List (List Nat)) (acc : List Nat),
      List.foldl writeChunk acc cs = acc ++ cs.flatten := by
    intro cs
    induction cs with
    | nil => intro acc; simp
    | cons ch rest ih => intro acc; simp [writeChunk, ih, List.append_assoc]
  simpa [writeSinkRun] using hgen chunks []

/-- In every reachable state of a stream or sink, the submitted counter
exceeds the resolved counter exactly when a task is pending. -/
theorem reachable_counts (m : Machine) (h : Reachable m) :
    m.submitted = m.resolved + (if m.st = OpState.Pending then 1 else 0) := by
  induction h with
  | refl => rfl
  | tail _ step ih =>
      cases step with
      | submit h2 => simp [h2] at ih ⊢; omega
      | resolveOk h2 => simp [h2] at ih ⊢; omega
      | resolveEnd h2 => simp [h2] at ih ⊢; omega
      | close h2 => simp [h2] at ih ⊢; omega

/-! Claim theorems. -/

/-- C1: the claim says that when the producer side of the oneshot channel
is destroyed without sending, polling the FsFuture fails with a
deterministic broken-channel error rather than panicking. The code
(src/lib.rs line 173) unwraps the receiver's poll result, so on a canceled
channel it panics instead of returning an error: evaluating the embedded
poll at the canceled state yields the unwrap panic. -/
theorem C1_poll_panics_when_producer_dropped :
    FsFuture.poll (α := Unit) OneshotState.canceled
      = PanicOr.panic "called Result unwrap on an Err value" :=
  rfl

/-- C2 counterexample: the claim says a dispatch failure after pool
shutdown is propagated to the caller as a dispatch error value, not by any
other mechanism. On a shut-down executor, delete evaluates to a panic
(the unwrap of the refused execute at src/lib.rs line 139), not to any
returned value. -/
theorem C2_counterexample_shutdown_panics :
    FsPool.delete [] ⟨true, []⟩ "a.txt"
      = PanicOr.panic "called Result unwrap on an Err value" :=
  rfl

/-- C2 amended: whenever the executor has shut down, FsPool::delete
panics on the calling thread while unwrapping the refused dispatch; the
failure is not returned to the caller as an error value. It remains
distinct from IO errors, which travel through the returned future. -/
theorem C2_shutdown_dispatch_panics (files : FileSys) (ex : ExecState)
    (p : String) (h : ex.shutdown = true) :
    FsPool.delete files ex p
      = PanicOr.panic "called Result unwrap on an Err value" := by
  simp [FsPool.delete, Executor.execute, unwrapOrPanic, h]

/-- C2 witness: the amended theorem applied to a concrete shut-down
executor. -/
theorem C2_shutdown_dispatch_panics_witness :
    ExecState.shutdown ⟨true, []⟩ = true ∧
    FsPool.delete [] ⟨true, []⟩ "b.txt"
      = PanicOr.panic "called Result unwrap on an Err value" :=
  ⟨rfl, C2_shutdown_dispatch_panics [] ⟨true, []⟩ "b.txt" rfl⟩

/-- C3: polling before the worker sent anything reports NotReady; polling
after Ok(v) was sent yields Ready(v); polling after Err(e) was sent yields
exactly that error e, verbatim. -/
theorem C3_poll_transitions {α : Type} (v : α) (e : IoError) :
    FsFuture.poll (OneshotState.waiting : OneshotState (Except IoError α))
        = PanicOr.value (.ok .NotReady)
    ∧ FsFuture.poll (OneshotState.sent (Except.ok v))
        = PanicOr.value (.ok (.Ready v))
    ∧ FsFuture.poll (OneshotState.sent (Except.error e : Except IoError α))
        = PanicOr.value (.error e) :=
  ⟨rfl, rfl, rfl⟩

/-- C4: on a live executor, delete appends exactly one task to the
executor queue eagerly at call time, leaves the file system untouched on
the calling thread, and hands back a still-waiting receiver; the
dispatched task is the one that performs the removal and sends its Result
into that channel. -/
theorem C4_delete_dispatches_one_task_eagerly (files : FileSys)
    (ex : ExecState) (p : String) (h : ex.shutdown = false) :
    FsPool.delete files ex p
        = PanicOr.value (files, ⟨false, ex.queue ++ [p]⟩, OneshotState.waiting)
      ∧ (runDeleteTask p files true).files = (removeFile files p).1
      ∧ (runDeleteTask p files true).chan
        = OneshotState.sent (removeFile files p).2 := by
  refine ⟨?_, rfl, rfl⟩
  simp [FsPool.delete, Executor.execute, unwrapOrPanic, h]

/-- C4 witness: the dispatch theorem applied to a concrete live executor
with an empty queue. -/
theorem C4_delete_dispatches_witness :
    ExecState.shutdown ⟨false, []⟩ = false ∧
    FsPool.delete [("f", [7])] ⟨false, []⟩ "f"
      = PanicOr.value ([("f", [7])], ⟨false, ["f"]⟩, OneshotState.waiting) :=
  ⟨rfl, (C4_delete_dispatches_one_task_eagerly [("f", [7])] ⟨false, []⟩ "f" rfl).1⟩

/-- C5: running the delete task on a path that does not exist leaves the
file system unchanged and resolves the future with a not-found system IO
error; on an existing path it resolves the future with success and the
path is absent afterward. -/
theorem C5_delete_semantics (files : FileSys) (p : String) :
    (lookupFile files p = none →
        (runDeleteTask p files true).files = files
      ∧ FsFuture.poll (runDeleteTask p files true).chan
          = PanicOr.value
              (Except.error ⟨.notFound, "No such file or directory"⟩))
  ∧ (∀ bs, lookupFile files p = some bs →
        FsFuture.poll (runDeleteTask p files true).chan
          = PanicOr.value (Except.ok (Async.Ready ()))
      ∧ lookupFile (runDeleteTask p files true).files p = none) := by
  constructor
  · intro h
    have hn : (lookupFile files p).isSome = false := by simp [h]
    constructor <;>
      simp [runDeleteTask, removeFile, hn, FsFuture.poll, Receiver.poll,
        unwrapOrPanic]
  · intro bs h
    have hs : (lookupFile files p).isSome = true := by simp [h]
    constructor
    · simp [runDeleteTask, removeFile, hs, FsFuture.poll, Receiver.poll,
        unwrapOrPanic]
    · simp only [runDeleteTask, removeFile, hs, if_true]
      exact lookupFile_removeEntry files p

/-- C5 witness: delete semantics at a concrete one-file file system, for
a missing path and for the existing path. -/
theorem C5_delete_semantics_witness :
    (lookupFile [("a", [1, 2])] "b" = none
      ∧ (runDeleteTask "b" [("a", [1, 2])] true).files = [("a", [1, 2])])
  ∧ (lookupFile [("a", [1, 2])] "a" = some [1, 2]
      ∧ lookupFile (runDeleteTask "a" [("a", [1, 2])] true).files "a" = none) :=
  ⟨⟨by decide, ((C5_delete_semantics [("a", [1, 2])] "b").1 (by decide)).1⟩,
   ⟨by decide, ((C5_delete_semantics [("a", [1, 2])] "a").2 [1, 2] (by decide)).2⟩⟩

/-- C6: for every file contents and every chunk size of at least one, the
chunks the Read Stream emits, concatenated in emission order, equal the
original bytes exactly. -/
theorem C6_read_chunks_concat (bytes : List Nat) (c : Nat) (hc : 1 ≤ c) :
    (readChunks bytes c).flatten = bytes :=
  readRun_flatten c hc bytes.length bytes (Nat.le_refl _)

/-- C6 witness: a five-byte file read with chunk size two. -/
theorem C6_read_chunks_concat_witness :
    (1 : Nat) ≤ 2 ∧ (readChunks [5, 6, 7, 8, 9] 2).flatten = [5, 6, 7, 8, 9] :=
  ⟨by decide, C6_read_chunks_concat [5, 6, 7, 8, 9] 2 (by decide)⟩

/-- C7: writing any sequence of chunks through the Write Sink and reading
the file back through a Read Stream of any chunk size of at least one
reproduces the written bytes exactly. -/
theorem C7_write_read_roundtrip (chunks : List (List Nat)) (c : Nat)
    (hc : 1 ≤ c) :
    (readChunks (writeSinkRun chunks) c).flatten = chunks.flatten := by
  rw [writeSinkRun_eq_flatten]
  exact readRun_flatten c hc _ _ (Nat.le_refl _)

/-- C7 witness: a concrete chunk sequence round-tripped with chunk size
three. -/
theorem C7_write_read_roundtrip_witness :
    (1 : Nat) ≤ 3 ∧ (readChunks (writeSinkRun [[1, 2], [3], [], [4, 5]]) 3).flatten
      = List.flatten [[1, 2], [3], [], [4, 5]] :=
  ⟨by decide, C7_write_read_roundtrip [[1, 2], [3], [], [4, 5]] 3 (by decide)⟩

/-- C8: in every state a single Read Stream or Write Sink can reach, at
most one task is outstanding in the pool: a new task is submitted only
from the Idle state, after the prior task resolved. -/
theorem C8_at_most_one_in_flight (m : Machine) (h : Reachable m) :
    m.outstanding ≤ 1 := by
  have hc := reachable_counts m h
  by_cases hst : m.st = OpState.Pending <;>
    simp [hst, Machine.outstanding] at hc ⊢ <;> omega

/-- C8 witness: the state reached after submitting the first task is
reachable and has at most one task outstanding. -/
theorem C8_at_most_one_in_flight_witness :
    Reachable ⟨OpState.Pending, 1, 0⟩
      ∧ Machine.outstanding ⟨OpState.Pending, 1, 0⟩ ≤ 1 := by
  have hr : Reachable ⟨OpState.Pending, 1, 0⟩ :=
    Relation.ReflTransGen.single (Step.submit Machine.init rfl)
  exact ⟨hr, C8_at_most_one_in_flight _ hr⟩

/-- C9: the Default instance builds the pool through new with exactly 4
threads, so the default pool owns a CpuPool of 4 threads. -/
theorem C9_default_is_new_four :
    FsPool.defaultPool = FsPool.new 4
    ∧ FsPool.defaultPool.executor = ExecutorKind.cpuPool 4 :=
  ⟨rfl, rfl⟩

/-- C10: the delete task delivers at most one value into the channel, and
its own outcome is never a panic: with the receiver alive it resolves
Ok(()), and when the receiver was dropped the failed send is mapped to the
unit error, so no failure reaches the worker thread. -/
theorem C10_task_sends_at_most_once (p : String) (files : FileSys)
    (alive : Bool) :
    (runDeleteTask p files alive).sends ≤ 1
    ∧ (runDeleteTask p files alive).result
        = PanicOr.value (if alive then Except.ok () else Except.error ()) := by
  cases alive <;> exact ⟨by simp [runDeleteTask], rfl⟩

end FuturesFs
